import Mathlib

set_option maxRecDepth 16384

/-!
Verification of the image materialization pipeline of
`day-2-image-generation-mcp`.

Byte buffers (`Buffer` in the source) are modelled as `List Nat`, each
element a byte value below 256.  The PNG metadata codec
(`src/utils/image.ts`), the output-path resolution of `saveImage`, the
size estimate, and the orchestrator `executeGenerateImage`
(`src/tools/generate-image.ts`) are translated into executable
definitions.  Filesystem and network effects are passed in explicitly
through a `PipelineEnv` record and reported back as an `Effects` record
plus the written file content, so that the orchestration claims can be
stated as theorems about a pure function.
-/

/-- Big-endian encoding of a 32-bit value, as by `Buffer.writeUInt32BE`.
Node throws for values at or above `2 ^ 32`; every value written by the
source (a CRC32 value or a chunk data length of a JavaScript string) is
below that bound, on which this total model agrees with Node. -/
def writeUInt32BE (v : Nat) : List Nat :=
  [v / 16777216 % 256, v / 65536 % 256, v / 256 % 256, v % 256]

/-- Big-endian 32-bit read, as by `Buffer.readUInt32BE`: `none` models the
`ERR_OUT_OF_RANGE` exception Node raises when fewer than four bytes are
available at `off`. -/
def readUInt32BE (buf : List Nat) (off : Nat) : Option Nat :=
  if off + 4 ≤ buf.length then
    some (buf.getD off 0 * 16777216 + buf.getD (off + 1) 0 * 65536 +
      buf.getD (off + 2) 0 * 256 + buf.getD (off + 3) 0)
  else none

/-- Reversed CRC-32 polynomial used by zlib. -/
def crc32Poly : Nat := 0xEDB88320

/-- One shift-xor round of the bitwise CRC-32 computation. -/
def crc32Round (c : Nat) : Nat :=
  if c % 2 = 1 then (c / 2) ^^^ crc32Poly else c / 2

/-- Feed one byte into a running CRC-32 state.  The byte is reduced mod
256, reflecting the `u8` domain of zlib input buffers. -/
def crc32Byte (c b : Nat) : Nat :=
  crc32Round^[8] (c ^^^ (b % 256))

/-- CRC-32 of a byte list, as computed by `zlib.crc32`: initial value
`0xFFFFFFFF`, final xor `0xFFFFFFFF`, reflected polynomial. -/
def crc32 (data : List Nat) : Nat :=
  (data.foldl crc32Byte 0xFFFFFFFF) ^^^ 0xFFFFFFFF

/-- Latin-1 bytes of a string, as `Buffer.from(s, "latin1")`: one byte per
UTF-16 unit, high bits dropped.  The source only applies this to ASCII
chunk keywords, on which the model is exact. -/
def latin1Bytes (s : String) : List Nat :=
  s.data.map fun c => c.toNat % 256

/-- UTF-8 encoding of one scalar value, byte values as `Nat`. -/
def utf8EncodeCharNat (c : Char) : List Nat :=
  let n := c.toNat
  if n < 128 then [n]
  else if n < 2048 then [192 + n / 64, 128 + n % 64]
  else if n < 65536 then [224 + n / 4096, 128 + n / 64 % 64, 128 + n % 64]
  else [240 + n / 262144, 128 + n / 4096 % 64, 128 + n / 64 % 64, 128 + n % 64]

/-- UTF-8 bytes of a string, as `Buffer.from(s, "utf8")`. -/
def utf8Bytes (s : String) : List Nat :=
  s.data.flatMap utf8EncodeCharNat

/-- Keyword sanitization of `createPngTextChunk`:
`keyword.slice(0, 79).trim()` — the first 79 UTF-16 units, whitespace
stripped from both ends (the JavaScript and Lean whitespace sets agree on
the ASCII characters the source uses in keywords). -/
def safeKeyword (keyword : String) : String :=
  String.mk
    ((((keyword.data.take 79).dropWhile Char.isWhitespace).reverse.dropWhile
      Char.isWhitespace).reverse)

/-- The four ASCII bytes of the `tEXt` chunk type tag. -/
def tEXtType : List Nat := latin1Bytes "tEXt"

/-- Data payload of a `tEXt` chunk: keyword bytes, one zero byte, text
bytes (`Buffer.concat([keywordBuf, Buffer.from([0]), textBuf])`). -/
def pngTextChunkData (keyword text : String) : List Nat :=
  latin1Bytes (safeKeyword keyword) ++ 0 :: utf8Bytes text

/-- Model of `createPngTextChunk`: length field, type tag, data, CRC-32
over type-plus-data.  The `>>> 0` in the source is a no-op because zlib
CRC values are already unsigned. -/
def createPngTextChunk (keyword text : String) : List Nat :=
  let data := pngTextChunkData keyword text
  writeUInt32BE data.length ++ tEXtType ++ data ++
    writeUInt32BE (crc32 (tEXtType ++ data))

/-- The fixed eight-byte PNG signature. -/
def pngSignature : List Nat := [137, 80, 78, 71, 13, 10, 26, 10]

/-- Provenance record embedded into generated images
(`ImageMetadata` in `src/utils/image.ts`). -/
structure ImageMetadata where
  prompt : Option String
  model : Option String
  provider : Option String
  format : Option String
  style : Option String
  title : Option String
  generatedAt : Option String
deriving DecidableEq

/-- One conditional chunk of `embedPngMetadata`: a field contributes a
`tEXt` chunk exactly when it is present and non-empty (the JavaScript
truthiness test `if (metadata.field)`). -/
def chunkIf (field : Option String) (keyword : String) : List Nat :=
  match field with
  | some s => if s = "" then [] else createPngTextChunk keyword s
  | none => []

/-- Fixed software tag value appended by `embedPngMetadata`. -/
def softwareTag : String := "image-generation-mcp"

/-- Fixed source-repository tag value appended by `embedPngMetadata`. -/
def sourceTag : String :=
  "https://github.com/12-days-of-shipmas-2025/day-2-image-generation-mcp"

/-- The metadata chunks synthesized by `embedPngMetadata`, in source
order: Description, AI-Model, AI-Provider, Image-Format, AI-Style, Title,
Creation-Time for present non-empty fields, then always Software and
Source. -/
def metadataChunks (m : ImageMetadata) : List Nat :=
  chunkIf m.prompt "Description" ++
  chunkIf m.model "AI-Model" ++
  chunkIf m.provider "AI-Provider" ++
  chunkIf m.format "Image-Format" ++
  chunkIf m.style "AI-Style" ++
  chunkIf m.title "Title" ++
  chunkIf m.generatedAt "Creation-Time" ++
  createPngTextChunk "Software" softwareTag ++
  createPngTextChunk "Source" sourceTag

/-- Model of `embedPngMetadata`.  A buffer failing the signature check is
returned unchanged; otherwise the declared length of the first (IHDR)
chunk is read at offset 8 and the synthesized chunks are spliced in right
after that chunk.  `none` models the `ERR_OUT_OF_RANGE` exception of
`readUInt32BE` on a signature-valid buffer shorter than 12 bytes.
`Buffer.slice` clamps out-of-range indices, as do `List.take` and
`List.drop`. -/
def embedPngMetadata (pngBuffer : List Nat) (metadata : ImageMetadata) :
    Option (List Nat) :=
  if pngBuffer.take 8 = pngSignature then
    match readUInt32BE pngBuffer 8 with
    | none => none
    | some ihdrLength =>
      let ihdrEnd := 8 + 4 + 4 + ihdrLength + 4
      some (pngBuffer.take ihdrEnd ++ metadataChunks metadata ++
        pngBuffer.drop ihdrEnd)
  else some pngBuffer

/-- Byte cost of one synthesized chunk, as stated by the specification:
12 framing bytes plus keyword bytes plus one zero byte plus value
bytes. -/
def chunkCost (keyword value : String) : Nat :=
  12 + (latin1Bytes (safeKeyword keyword)).length + 1 + (utf8Bytes value).length

/-- Byte cost contributed by one optional provenance field. -/
def fieldCost (field : Option String) (keyword : String) : Nat :=
  match field with
  | some s => if s = "" then 0 else chunkCost keyword s
  | none => 0

/-- Total byte overhead added by `embedPngMetadata` for a provenance
record: one chunk per present non-empty field plus the two fixed
chunks. -/
def totalCost (m : ImageMetadata) : Nat :=
  fieldCost m.prompt "Description" +
  fieldCost m.model "AI-Model" +
  fieldCost m.provider "AI-Provider" +
  fieldCost m.format "Image-Format" +
  fieldCost m.style "AI-Style" +
  fieldCost m.title "Title" +
  fieldCost m.generatedAt "Creation-Time" +
  chunkCost "Software" softwareTag +
  chunkCost "Source" sourceTag

/-- Extension table of `getExtensionFromMimeType`, with the `.png`
fallback for unknown MIME types. -/
def getExtensionFromMimeType (mimeType : String) : String :=
  if mimeType = "image/png" then ".png"
  else if mimeType = "image/jpeg" then ".jpg"
  else if mimeType = "image/jpg" then ".jpg"
  else if mimeType = "image/webp" then ".webp"
  else if mimeType = "image/gif" then ".gif"
  else ".png"

/-- Character replacement of `generateFilename`: the regex
`/[:.]/g` replaced by a dash. -/
def replaceTsChar (c : Char) : Char :=
  if c = ':' ∨ c = '.' then '-' else c

/-- Timestamp portion of a generated filename:
`iso.replace(/[:.]/g, "-").slice(0, 19)`, over the ISO-8601 string of the
current time. -/
def isoTimestamp (iso : String) : String :=
  String.mk ((iso.data.map replaceTsChar).take 19)

/-- Model of `generateFilename`: prefix, dash, truncated timestamp,
extension from the MIME table. -/
def generateFilename (pfx mimeType iso : String) : String :=
  pfx ++ "-" ++ isoTimestamp iso ++ getExtensionFromMimeType mimeType

/-- Whether a string ends with the single character `c`, as
`String.prototype.endsWith` with a one-character argument. -/
def endsWithChar (s : String) (c : Char) : Bool :=
  match s.data.reverse with
  | [] => false
  | d :: _ => d == c

/-- Model of `path.join(dir, file)` for the shapes the source produces: a
directory path followed by a bare filename.  Node collapses the doubled
separator when `dir` already ends with one. -/
def joinPath (a b : String) : String :=
  if endsWithChar a '/' then a ++ b else a ++ "/" ++ b

/-- Model of `path.extname` (POSIX): the substring of the last path
component from its last dot, empty when the component has no dot, when
the only dot is its first character (dotfiles), or for the special
component `..`. -/
def extname (p : String) : String :=
  let rbase := p.data.reverse.takeWhile fun c => c != '/'
  if rbase = ['.', '.'] then ""
  else
    let t := rbase.takeWhile fun c => c != '.'
    if t.length = rbase.length then ""
    else if rbase.length - t.length - 1 = 0 then ""
    else String.mk ('.' :: t.reverse)

/-- Path computation of `saveImage` (lines 158-182): treat the supplied
path as a directory when it textually ends with a separator or the
filesystem reports an existing directory there (`existsAsDir`), in which
case a generated filename is joined on; then append the MIME-derived
extension when the path has none.  `path.resolve` is modelled as the
identity: the embedding works with already-absolute, normalized paths,
and the claims under verification concern only the filename suffix
structure, which `resolve` preserves. -/
def resolveOutputPath (outputPath mimeType iso : String)
    (existsAsDir : Bool) : String :=
  let isDirectory :=
    endsWithChar outputPath '/' || endsWithChar outputPath '\\' || existsAsDir
  let path1 :=
    if isDirectory then
      joinPath outputPath (generateFilename "blog-image" mimeType iso)
    else outputPath
  if extname path1 = "" then path1 ++ getExtensionFromMimeType mimeType
  else path1

/-- Value of one base64 alphabet character; `none` for characters outside
the alphabet (including padding), which Node's base64 decoder skips. -/
def base64Val (c : Char) : Option Nat :=
  if 65 ≤ c.toNat ∧ c.toNat ≤ 90 then some (c.toNat - 65)
  else if 97 ≤ c.toNat ∧ c.toNat ≤ 122 then some (c.toNat - 71)
  else if 48 ≤ c.toNat ∧ c.toNat ≤ 57 then some (c.toNat + 4)
  else if c = '+' then some 62
  else if c = '/' then some 63
  else none

/-- Reassemble bytes from a list of six-bit values, most significant bits
first; a trailing group of fewer than four values yields the whole bytes
its bits cover, as Node does. -/
def base64DecodeVals : List Nat → List Nat
  | a :: b :: c :: d :: rest =>
    (a * 4 + b / 16) :: ((b % 16) * 16 + c / 4) :: ((c % 4) * 64 + d) ::
      base64DecodeVals rest
  | [a, b] => [a * 4 + b / 16]
  | [a, b, c] => [a * 4 + b / 16, (b % 16) * 16 + c / 4]
  | _ => []

/-- Model of `Buffer.from(base64Data, "base64")`. -/
def base64Decode (s : String) : List Nat :=
  base64DecodeVals (s.data.filterMap base64Val)

/-- Model of `estimateFileSize`: `Math.floor(base64.length * 3 / 4)`. -/
def estimateFileSize (base64Data : String) : Nat :=
  base64Data.length * 3 / 4

/-- Render a tenths value `t` as the decimal string `t/10 . t%10`. -/
def formatTenths (t : Nat) : String :=
  toString (t / 10) ++ "." ++ toString (t % 10)

/-- Model of `formatFileSize`.  The `toFixed(1)` float formatting of the
KB and MB branches is modelled as decimal rounding to tenths, half away
from zero; no claim under verification exercises those branches. -/
def formatFileSize (bytes : Nat) : String :=
  if bytes < 1024 then toString bytes ++ " B"
  else if bytes < 1048576 then
    formatTenths ((bytes * 10 + 512) / 1024) ++ " KB"
  else formatTenths ((bytes * 10 + 524288) / 1048576) ++ " MB"

/-- Platform preset record consumed by the orchestrator
(`PlatformPreset` in `src/config/presets.ts`, a file not present in the
sources; its field set is taken from the uses in `executeGenerateImage`
and from the specification of the preset table). -/
structure PlatformPreset where
  width : Nat
  height : Nat
  aspectRatio : String
  geminiAspectRatio : String
  nativeAspectRatio : Bool
deriving DecidableEq

/-- Structured form of the warning string built by `executeGenerateImage`
(lines 192-202), carrying exactly the values interpolated into the two
message templates: the substituted-aspect note for a non-native preset,
and the dimension-drift note naming both sizes. -/
inductive GeometryAdvisory where
  | nativeMismatch (presetAspect geminiAspect : String)
      (presetWidth presetHeight : Nat)
  | dimensionDrift (actualWidth actualHeight presetWidth presetHeight : Nat)
deriving DecidableEq

/-- Geometry reconciliation of `executeGenerateImage` (lines 187-202):
actual dimensions default to the preset ones when the provider omitted
them, a non-native aspect ratio always warns, and a native one warns
exactly when the reported dimensions differ from the preset. -/
def reconcileGeometry (preset : PlatformPreset)
    (genWidth genHeight : Option Nat) :
    Nat × Nat × Option GeometryAdvisory :=
  let actualWidth := genWidth.getD preset.width
  let actualHeight := genHeight.getD preset.height
  let warning :=
    if !preset.nativeAspectRatio then
      some (GeometryAdvisory.nativeMismatch preset.aspectRatio
        preset.geminiAspectRatio preset.width preset.height)
    else if actualWidth ≠ preset.width ∨ actualHeight ≠ preset.height then
      some (GeometryAdvisory.dimensionDrift actualWidth actualHeight
        preset.width preset.height)
    else none
  (actualWidth, actualHeight, warning)

/-- Provider result (`GeneratedImage` in `src/providers/types.ts`). -/
structure GeneratedImage where
  base64Data : String
  mimeType : String
  width : Option Nat
  height : Option Nat
  model : Option String
deriving DecidableEq

/-- Validated tool input (`GenerateImageInput`). -/
structure GenerateImageInput where
  prompt : String
  format : String
  quality : String
  style : Option String
  title : Option String
  outputPath : Option String
  provider : String
deriving DecidableEq

/-- Image section of a successful tool result. -/
structure ImageInfo where
  base64Data : String
  mimeType : String
  format : String
  width : Nat
  height : Nat
  requestedWidth : Nat
  requestedHeight : Nat
  fileSize : String
  savedTo : String
deriving DecidableEq

/-- Tool result (`GenerateImageResult`), with the warning kept in its
structured form. -/
structure GenerateImageResult where
  success : Bool
  message : String
  image : Option ImageInfo
  warning : Option GeometryAdvisory
  error : Option String
deriving DecidableEq

/-- Side-effect record of one pipeline run: whether the provider was
invoked, whether a directory was created, whether a file was written. -/
structure Effects where
  providerCalled : Bool
  madeDir : Bool
  wroteFile : Bool
deriving DecidableEq

/-- A committed filesystem write: path and content. -/
structure FileWrite where
  path : String
  bytes : List Nat
deriving DecidableEq

/-- External world of one pipeline run: the provider configuration
snapshot, the outcome of the (single) provider call, the filesystem
answers, the write outcome, the default output root and the clock. -/
structure PipelineEnv where
  providerConfigured : Bool
  providerResult : Except String GeneratedImage
  writeError : Option String
  outputPathExistsAsDir : Bool
  dirExists : Bool
  defaultOutputDir : String
  isoNow : String

/-- Modelled from the spec: `safeErrorMessage` lives in
`src/utils/security.ts`, which is not among the sources.  Per the
specification it strips credential-like content from an error message
before it is surfaced; on secret-free messages it returns the message
unchanged, and it is modelled as the identity, which no claim under
verification distinguishes. -/
def safeErrorMessage (message : String) : String := message

/-- Provenance record assembled by `executeGenerateImage`
(lines 160-168). -/
def buildMetadata (input : GenerateImageInput) (img : GeneratedImage)
    (isoNow : String) : ImageMetadata :=
  { prompt := some input.prompt
    model := some (img.model.getD "gemini-2.0-flash-exp")
    provider := some input.provider
    format := some input.format
    style := input.style
    title := input.title
    generatedAt := some isoNow }

/-- Output path chosen by the orchestrator: the supplied one, else a
generated default under the default output root
(`generateDefaultOutputPath`). -/
def pipelineOutputPath (input : GenerateImageInput) (env : PipelineEnv)
    (img : GeneratedImage) : String :=
  input.outputPath.getD
    (joinPath env.defaultOutputDir
      (generateFilename "blog-image" img.mimeType env.isoNow))

/-- Model of `saveImage`: resolve the path, decode the base64 payload,
embed metadata when present and the MIME type is `image/png`, then write.
The boolean result reports whether a directory had to be created (the
recursive `mkdir`, which happens before any of the fallible steps).
`Except.error` carries the message of the exception `saveImage` throws:
the out-of-range read inside `embedPngMetadata`, or the write failure
injected by the environment. -/
def saveImageModel (base64Data outputPath mimeType : String)
    (metadata : Option ImageMetadata) (env : PipelineEnv) :
    Except String FileWrite × Bool :=
  let finalPath :=
    resolveOutputPath outputPath mimeType env.isoNow env.outputPathExistsAsDir
  let madeDir := !env.dirExists
  let rawBuffer := base64Decode base64Data
  let embedded : Option (List Nat) :=
    match metadata with
    | some md =>
      if mimeType = "image/png" then embedPngMetadata rawBuffer md
      else some rawBuffer
    | none => some rawBuffer
  match embedded with
  | none => (Except.error "The value of offset is out of range", madeDir)
  | some finalBuffer =>
    match env.writeError with
    | some e => (Except.error e, madeDir)
    | none => (Except.ok { path := finalPath, bytes := finalBuffer }, madeDir)

/-- Model of `executeGenerateImage` (`src/tools/generate-image.ts`), from
the provider-configuration check onward; the input is taken as already
schema-validated and prompt/path validation (in the absent
`src/utils/security.ts`) as passed, since every claim under verification
concerns the later stages.  Returns the result record, the side-effect
record and the committed file write, if any. -/
def executeGenerateImage (input : GenerateImageInput)
    (preset : PlatformPreset) (env : PipelineEnv) :
    GenerateImageResult × Effects × Option FileWrite :=
  if env.providerConfigured then
    match env.providerResult with
    | Except.error e =>
      ({ success := false, message := "Image generation failed",
         image := none, warning := none,
         error := some (safeErrorMessage e) },
       { providerCalled := true, madeDir := false, wroteFile := false }, none)
    | Except.ok generatedImage =>
      let fileSize := formatFileSize (estimateFileSize generatedImage.base64Data)
      let outputPath := pipelineOutputPath input env generatedImage
      let metadata := buildMetadata input generatedImage env.isoNow
      match saveImageModel generatedImage.base64Data outputPath
        generatedImage.mimeType (some metadata) env with
      | (Except.error e, madeDir) =>
        ({ success := false, message := "Failed to save image",
           image := none, warning := none,
           error := some (safeErrorMessage e) },
         { providerCalled := true, madeDir := madeDir, wroteFile := false },
         none)
      | (Except.ok fw, madeDir) =>
        let g := reconcileGeometry preset generatedImage.width
          generatedImage.height
        ({ success := true,
           message := "Image generated and saved to " ++ fw.path,
           image := some
             { base64Data := generatedImage.base64Data
               mimeType := generatedImage.mimeType
               format := input.format
               width := g.1
               height := g.2.1
               requestedWidth := preset.width
               requestedHeight := preset.height
               fileSize := fileSize
               savedTo := fw.path },
           warning := g.2.2, error := none },
         { providerCalled := true, madeDir := madeDir, wroteFile := true },
         some fw)
  else
    ({ success := false, message := "Provider not configured",
       image := none, warning := none,
       error := some (input.provider ++
         " provider requires API key. Set GOOGLE_API_KEY environment variable.") },
     { providerCalled := false, madeDir := false, wroteFile := false }, none)

/-- Whether `pat` occurs as a contiguous substring of `s`, used to state
what an error text does or does not say. -/
def containsSub (s pat : String) : Bool :=
  go s.data pat.data
where
  /-- Walk the haystack, testing a prefix match at every position. -/
  go : List Char → List Char → Bool
    | [], pat => pat.isEmpty
    | s@(_ :: t), pat => pat.isPrefixOf s || go t pat



/-- Concrete provenance record used by the evaluation theorems, with one
absent field and one empty field to exercise the truthiness guards. -/
def cMd : ImageMetadata :=
  { prompt := some "sunset", model := some "gemini-2.5-flash-image",
    provider := some "gemini", format := some "ghost-banner",
    style := none, title := some "",
    generatedAt := some "2025-12-02T10:30:00.000Z" }

/-- Provenance record with every field absent. -/
def mdNone : ImageMetadata :=
  { prompt := none, model := none, provider := none, format := none,
    style := none, title := none, generatedAt := none }

/-- A minimal well-formed PNG buffer: signature, then an IHDR chunk with
declared length 13, type tag, 13 data bytes and a checksum field. -/
def cPngBuf : List Nat :=
  pngSignature ++ [0, 0, 0, 13, 73, 72, 68, 82] ++ List.replicate 13 0 ++
    [0, 0, 0, 0]

/-- Reading past an append boundary lands in the right-hand list. -/
lemma getD_after (l1 l2 : List Nat) (i : Nat) :
    (l1 ++ l2).getD (l1.length + i) 0 = l2.getD i 0 := by
  rw [List.getD_append_right _ _ _ _ (Nat.le_add_right _ _),
    Nat.add_sub_cancel_left]

/-- A big-endian write at the head of a buffer reads back as the written
value reduced mod `2 ^ 32`. -/
lemma readUInt32BE_write (v : Nat) (rest : List Nat) :
    readUInt32BE (writeUInt32BE v ++ rest) 0 = some (v % 4294967296) := by
  simp [readUInt32BE, writeUInt32BE, List.getD]
  omega

/-- A big-endian write after a front buffer reads back at the boundary
offset as the written value reduced mod `2 ^ 32`. -/
lemma readUInt32BE_append_write (l1 : List Nat) (v : Nat) :
    readUInt32BE (l1 ++ writeUInt32BE v) l1.length = some (v % 4294967296) := by
  have g0 : (l1 ++ writeUInt32BE v).getD l1.length 0 =
      (writeUInt32BE v).getD 0 0 := by
    simpa using getD_after l1 (writeUInt32BE v) 0
  have g1 := getD_after l1 (writeUInt32BE v) 1
  have g2 := getD_after l1 (writeUInt32BE v) 2
  have g3 := getD_after l1 (writeUInt32BE v) 3
  simp [readUInt32BE, List.length_append, writeUInt32BE, List.getD] at g0 g1 g2 g3 ⊢
  omega

/-- A xor of two 32-bit values is a 32-bit value. -/
lemma xor_lt_two32 {x y : Nat} (hx : x < 4294967296) (hy : y < 4294967296) :
    x ^^^ y < 4294967296 := by
  have h32 : (4294967296 : Nat) = 2 ^ 32 := by norm_num
  rw [h32] at hx hy ⊢
  exact Nat.bitwise_lt hx hy

/-- One CRC round keeps the state inside 32 bits. -/
lemma crc32Round_lt {c : Nat} (h : c < 4294967296) :
    crc32Round c < 4294967296 := by
  unfold crc32Round
  split
  · exact xor_lt_two32 (by omega) (by norm_num [crc32Poly])
  · omega

/-- Feeding a byte keeps the CRC state inside 32 bits. -/
lemma crc32Byte_lt {c : Nat} (b : Nat) (h : c < 4294967296) :
    crc32Byte c b < 4294967296 := by
  unfold crc32Byte
  have hx : c ^^^ b % 256 < 4294967296 := xor_lt_two32 h (by omega)
  have iter : ∀ n x, x < 4294967296 → crc32Round^[n] x < 4294967296 := by
    intro n
    induction n with
    | zero => intro x hx0; simpa using hx0
    | succ n ih =>
      intro x hx0
      rw [Function.iterate_succ_apply]
      exact ih _ (crc32Round_lt hx0)
  exact iter 8 _ hx

/-- CRC-32 values are 32-bit values. -/
lemma crc32_lt (data : List Nat) : crc32 data < 4294967296 := by
  have fold : ∀ (l : List Nat) (c : Nat), c < 4294967296 →
      l.foldl crc32Byte c < 4294967296 := by
    intro l
    induction l with
    | nil => intro c hc; simpa using hc
    | cons a t ih => intro c hc; exact ih _ (crc32Byte_lt a hc)
  exact xor_lt_two32 (fold data 0xFFFFFFFF (by norm_num)) (by norm_num)

/-- The `tEXt` type tag is four bytes long. -/
lemma tEXtType_length : tEXtType.length = 4 := by decide

/-- A synthesized chunk occupies exactly its stated byte cost: 12 framing
bytes plus keyword bytes plus the separator byte plus value bytes. -/
lemma createPngTextChunk_length (k v : String) :
    (createPngTextChunk k v).length = chunkCost k v := by
  simp [createPngTextChunk, chunkCost, pngTextChunkData, writeUInt32BE,
    tEXtType_length, List.length_append]
  omega

/-- A conditional chunk occupies exactly its field cost. -/
lemma chunkIf_length (f : Option String) (k : String) :
    (chunkIf f k).length = fieldCost f k := by
  cases f with
  | none => rfl
  | some s =>
    by_cases h : s = "" <;>
      simp [chunkIf, fieldCost, h, createPngTextChunk_length]

/-- The synthesized chunk run occupies exactly the total cost of the
record. -/
lemma metadataChunks_length (m : ImageMetadata) :
    (metadataChunks m).length = totalCost m := by
  simp [metadataChunks, totalCost, List.length_append, chunkIf_length,
    createPngTextChunk_length]
  omega

/-- Every chunk has at least its 13 framing and separator bytes. -/
lemma chunkCost_pos (k v : String) : 0 < chunkCost k v := by
  unfold chunkCost
  omega

/-- The chunk run is never empty: the Software chunk is always there. -/
lemma metadataChunks_pos (m : ImageMetadata) :
    0 < (metadataChunks m).length := by
  rw [metadataChunks_length]
  have h : 0 < chunkCost "Software" softwareTag := chunkCost_pos _ _
  unfold totalCost
  omega

/-- C1: for a provenance record and a buffer carrying the PNG signature
whose declared first-chunk length fits in the buffer, `embedPngMetadata`
keeps the signature-plus-first-chunk prefix, splices in exactly one tEXt
chunk per present non-empty field in the fixed order Description,
AI-Model, AI-Provider, Image-Format, AI-Style, Title, Creation-Time,
then always a Software and a Source chunk, keeps the remaining input
bytes, and grows the buffer by exactly the sum of the synthesized chunk
costs (each 12 plus keyword bytes plus 1 plus value bytes). -/
theorem embed_splices_chunks (md : ImageMetadata) (buf : List Nat) (L : Nat)
    (hsig : buf.take 8 = pngSignature)
    (hread : readUInt32BE buf 8 = some L)
    (hfit : 8 + 4 + 4 + L + 4 ≤ buf.length) :
    embedPngMetadata buf md = some (buf.take (8 + 4 + 4 + L + 4) ++
      (chunkIf md.prompt "Description" ++ chunkIf md.model "AI-Model" ++
       chunkIf md.provider "AI-Provider" ++ chunkIf md.format "Image-Format" ++
       chunkIf md.style "AI-Style" ++ chunkIf md.title "Title" ++
       chunkIf md.generatedAt "Creation-Time" ++
       createPngTextChunk "Software" softwareTag ++
       createPngTextChunk "Source" sourceTag) ++
      buf.drop (8 + 4 + 4 + L + 4))
    ∧ (buf.take (8 + 4 + 4 + L + 4) ++ metadataChunks md ++
        buf.drop (8 + 4 + 4 + L + 4)).length = buf.length + totalCost md := by
  constructor
  · simp [embedPngMetadata, hsig, hread, metadataChunks]
  · simp [List.length_append, List.length_take, List.length_drop,
      metadataChunks_length]
    omega

/-- C1 witness: the splice theorem evaluated on a concrete minimal PNG
buffer and a concrete provenance record. -/
theorem embed_splices_chunks_witness :
    embedPngMetadata cPngBuf cMd = some (cPngBuf.take (8 + 4 + 4 + 13 + 4) ++
      (chunkIf cMd.prompt "Description" ++ chunkIf cMd.model "AI-Model" ++
       chunkIf cMd.provider "AI-Provider" ++ chunkIf cMd.format "Image-Format" ++
       chunkIf cMd.style "AI-Style" ++ chunkIf cMd.title "Title" ++
       chunkIf cMd.generatedAt "Creation-Time" ++
       createPngTextChunk "Software" softwareTag ++
       createPngTextChunk "Source" sourceTag) ++
      cPngBuf.drop (8 + 4 + 4 + 13 + 4)) :=
  (embed_splices_chunks cMd cPngBuf 13 (by decide) (by decide) (by decide)).1

/-- C3: a buffer that does not start with the PNG signature — of any
size, including the empty buffer — passes through `embedPngMetadata`
unchanged, with no exception. -/
theorem embed_non_png_passthrough (buf : List Nat) (md : ImageMetadata)
    (h : buf.take 8 ≠ pngSignature) :
    embedPngMetadata buf md = some buf := by
  simp [embedPngMetadata, h]

/-- C3 witness: the pass-through theorem evaluated on the empty buffer. -/
theorem embed_non_png_passthrough_witness :
    ([] : List Nat).take 8 ≠ pngSignature ∧
      embedPngMetadata [] mdNone = some [] :=
  ⟨by decide, embed_non_png_passthrough [] mdNone (by decide)⟩

/-- C4: in every chunk built by `createPngTextChunk`, the four checksum
bytes at offset 8 plus the data length decode (big-endian) to the CRC-32
of the type tag followed by the data, and the four length bytes at
offset 0 decode to the length of the data alone. -/
theorem chunk_fields_encode_crc_and_length (k v : String)
    (h : (pngTextChunkData k v).length < 4294967296) :
    readUInt32BE (createPngTextChunk k v) (8 + (pngTextChunkData k v).length)
      = some (crc32 (tEXtType ++ pngTextChunkData k v))
    ∧ readUInt32BE (createPngTextChunk k v) 0
      = some (pngTextChunkData k v).length := by
  constructor
  · have hfront : (writeUInt32BE (pngTextChunkData k v).length ++ tEXtType ++
        pngTextChunkData k v).length = 8 + (pngTextChunkData k v).length := by
      simp [List.length_append, writeUInt32BE, tEXtType_length]
      omega
    have hrd := readUInt32BE_append_write
      (writeUInt32BE (pngTextChunkData k v).length ++ tEXtType ++
        pngTextChunkData k v)
      (crc32 (tEXtType ++ pngTextChunkData k v))
    rw [hfront] at hrd
    have hassoc : createPngTextChunk k v =
        (writeUInt32BE (pngTextChunkData k v).length ++ tEXtType ++
          pngTextChunkData k v) ++
        writeUInt32BE (crc32 (tEXtType ++ pngTextChunkData k v)) := rfl
    rw [hassoc, hrd, Nat.mod_eq_of_lt (crc32_lt _)]
  · have hassoc2 : createPngTextChunk k v =
        writeUInt32BE (pngTextChunkData k v).length ++
          (tEXtType ++ (pngTextChunkData k v ++
            writeUInt32BE (crc32 (tEXtType ++ pngTextChunkData k v)))) := by
      simp [createPngTextChunk, List.append_assoc]
    rw [hassoc2, readUInt32BE_write, Nat.mod_eq_of_lt h]

/-- C4 witness: the field-encoding theorem evaluated on the fixed
Software chunk. -/
theorem chunk_fields_encode_crc_and_length_witness :
    (pngTextChunkData "Software" softwareTag).length < 4294967296 ∧
      readUInt32BE (createPngTextChunk "Software" softwareTag)
        (8 + (pngTextChunkData "Software" softwareTag).length)
      = some (crc32 (tEXtType ++ pngTextChunkData "Software" softwareTag)) :=
  ⟨by decide, (chunk_fields_encode_crc_and_length "Software" softwareTag
    (by decide)).1⟩

/-- C10: a buffer that carries the PNG signature but is shorter than 12
bytes makes `embedPngMetadata` fail (the out-of-range read of the first
chunk length at offset 8) instead of returning a buffer. -/
theorem embed_errors_on_short_signature (buf : List Nat)
    (md : ImageMetadata) (hsig : buf.take 8 = pngSignature)
    (hlen : buf.length < 12) :
    embedPngMetadata buf md = none := by
  have hr : readUInt32BE buf 8 = none := by
    unfold readUInt32BE
    rw [if_neg]
    omega
  simp [embedPngMetadata, hsig, hr]

/-- C10 witness: the bare eight-byte signature is signature-valid,
shorter than 12 bytes, and makes the embedding fail. -/
theorem embed_errors_on_short_signature_witness :
    pngSignature.take 8 = pngSignature ∧ pngSignature.length < 12 ∧
      embedPngMetadata pngSignature mdNone = none :=
  ⟨by decide, by decide,
    embed_errors_on_short_signature pngSignature mdNone (by decide) (by decide)⟩

/-- A native-aspect preset used by the evaluation theorems. -/
def cNativePreset : PlatformPreset :=
  { width := 1200, height := 675, aspectRatio := "16:9",
    geminiAspectRatio := "16:9", nativeAspectRatio := true }

/-- A preset whose aspect ratio the provider does not support natively. -/
def cNonNativePreset : PlatformPreset :=
  { width := 1200, height := 675, aspectRatio := "2:1",
    geminiAspectRatio := "16:9", nativeAspectRatio := false }

/-- C2 counterexample: for a non-native preset with provider-reported
dimensions 1536 by 864, the code produces the native-mismatch advisory but
reports the provider dimensions, not the requested preset dimensions —
refuting the claimed fallback of the resolved dimensions. -/
theorem reconcile_fallback_refuted :
    (reconcileGeometry cNonNativePreset (some 1536) (some 864)).2.2 =
      some (GeometryAdvisory.nativeMismatch "2:1" "16:9" 1200 675)
    ∧ (reconcileGeometry cNonNativePreset (some 1536) (some 864)).1 = 1536
    ∧ (reconcileGeometry cNonNativePreset (some 1536) (some 864)).2.1 = 864
    ∧ ¬((reconcileGeometry cNonNativePreset (some 1536) (some 864)).1 =
          cNonNativePreset.width
        ∧ (reconcileGeometry cNonNativePreset (some 1536) (some 864)).2.1 =
          cNonNativePreset.height) := by
  decide

/-- C2 as amended: the resolved dimensions are always the
provider-reported ones when present, falling back to the preset ones when
absent (also for non-native presets); a non-native preset always yields
the native-mismatch advisory; a native preset yields the dimension-drift
advisory naming both sizes exactly when the resolved dimensions differ
from the preset; and an advisory is present if and only if the aspect
ratio was substituted or the resolved dimensions differ from the
requested ones. -/
theorem reconcile_geometry_amended (preset : PlatformPreset)
    (gw gh : Option Nat) :
    (reconcileGeometry preset gw gh).1 = gw.getD preset.width
    ∧ (reconcileGeometry preset gw gh).2.1 = gh.getD preset.height
    ∧ (preset.nativeAspectRatio = false →
        (reconcileGeometry preset gw gh).2.2 =
          some (GeometryAdvisory.nativeMismatch preset.aspectRatio
            preset.geminiAspectRatio preset.width preset.height))
    ∧ (preset.nativeAspectRatio = true →
        gw.getD preset.width = preset.width →
        gh.getD preset.height = preset.height →
        (reconcileGeometry preset gw gh).2.2 = none)
    ∧ (preset.nativeAspectRatio = true →
        (gw.getD preset.width ≠ preset.width ∨
          gh.getD preset.height ≠ preset.height) →
        (reconcileGeometry preset gw gh).2.2 =
          some (GeometryAdvisory.dimensionDrift (gw.getD preset.width)
            (gh.getD preset.height) preset.width preset.height))
    ∧ ((reconcileGeometry preset gw gh).2.2.isSome ↔
        (preset.nativeAspectRatio = false ∨
          gw.getD preset.width ≠ preset.width ∨
          gh.getD preset.height ≠ preset.height)) := by
  cases hn : preset.nativeAspectRatio <;>
    by_cases hw : gw.getD preset.width = preset.width <;>
      by_cases hh : gh.getD preset.height = preset.height <;>
        simp [reconcileGeometry, hn, hw, hh]

/-- C2 amended witness: a native preset with matching provider dimensions
yields no advisory. -/
theorem reconcile_geometry_amended_witness :
    (reconcileGeometry cNativePreset (some 1200) (some 675)).2.2 = none :=
  (reconcile_geometry_amended cNativePreset (some 1200)
    (some 675)).2.2.2.1 rfl rfl rfl

/-- Shape of `extname` on a path made of a directory part, a separator,
and a filename with a single final dot-extension: it returns exactly that
extension. -/
lemma extname_of_shape (p : String) (pre stem tl : List Char)
    (hp : p.data = pre ++ '/' :: (stem ++ '.' :: tl))
    (htlne : tl ≠ []) (htl : ∀ c ∈ tl, c ≠ '.' ∧ c ≠ '/')
    (hstemne : stem ≠ []) (hstem : ∀ c ∈ stem, c ≠ '/') :
    extname p = String.mk ('.' :: tl) := by
  have hX : ∀ c ∈ (stem ++ '.' :: tl).reverse, (c != '/') = true := by
    intro c hc
    simp only [List.mem_reverse, List.mem_append, List.mem_cons] at hc
    rcases hc with h | h | h
    · simp [bne_iff_ne, hstem c h]
    · subst h; decide
    · simp [bne_iff_ne, (htl c h).2]
  have hT : ∀ c ∈ tl.reverse, (c != '.') = true := by
    intro c hc
    simp only [List.mem_reverse] at hc
    simp [bne_iff_ne, (htl c hc).1]
  have hrbase : p.data.reverse.takeWhile (fun c => c != '/')
      = tl.reverse ++ '.' :: stem.reverse := by
    rw [hp]
    have e1 : (pre ++ '/' :: (stem ++ '.' :: tl)).reverse
        = (stem ++ '.' :: tl).reverse ++ '/' :: pre.reverse := by
      simp
    rw [e1, List.takeWhile_append_of_pos hX,
      List.takeWhile_cons_of_neg (by decide)]
    simp
  have hlenrb : (tl.reverse ++ '.' :: stem.reverse).length
      = tl.length + stem.length + 1 := by
    simp
    omega
  have htlp : 0 < tl.length := List.length_pos.2 htlne
  have hstp : 0 < stem.length := List.length_pos.2 hstemne
  have ht : (tl.reverse ++ '.' :: stem.reverse).takeWhile (fun c => c != '.')
      = tl.reverse := by
    rw [List.takeWhile_append_of_pos hT,
      List.takeWhile_cons_of_neg (by decide)]
    simp
  simp only [extname]
  rw [hrbase]
  rw [if_neg (by
    intro h
    have hl := congrArg List.length h
    rw [hlenrb] at hl
    simp at hl
    omega)]
  rw [ht]
  rw [if_neg (by
    rw [hlenrb, List.length_reverse]
    omega)]
  rw [if_neg (by
    rw [hlenrb, List.length_reverse]
    omega)]
  simp

/-- The truncated timestamp never contains a separator when the clock
string contains none. -/
lemma ts_no_slash (iso : String) (hiso : ∀ c ∈ iso.data, c ≠ '/') :
    ∀ c ∈ (isoTimestamp iso).data, c ≠ '/' := by
  intro c hc
  have hc2 : c ∈ (iso.data.map replaceTsChar).take 19 := hc
  have hc3 := List.mem_of_mem_take hc2
  rcases List.mem_map.1 hc3 with ⟨c0, hc0, hrepl⟩
  subst hrepl
  unfold replaceTsChar
  split
  · decide
  · exact hiso c0 hc0

/-- The truncated timestamp never contains a dot: the replacement maps
every dot to a dash. -/
lemma ts_no_dot (iso : String) :
    ∀ c ∈ (isoTimestamp iso).data, c ≠ '.' := by
  intro c hc
  have hc2 : c ∈ (iso.data.map replaceTsChar).take 19 := hc
  have hc3 := List.mem_of_mem_take hc2
  rcases List.mem_map.1 hc3 with ⟨c0, hc0, hrepl⟩
  subst hrepl
  unfold replaceTsChar
  split
  · decide
  · rename_i hn
    intro hcon
    exact hn (Or.inr hcon)

/-- The timestamp portion of a generated filename has exactly 19
characters whenever the ISO clock string has at least 19. -/
lemma isoTimestamp_length (iso : String) (h : 19 ≤ iso.length) :
    (isoTimestamp iso).length = 19 := by
  have hdl : iso.data.length = iso.length := rfl
  rw [← hdl] at h
  simp only [isoTimestamp, String.length_mk, List.length_take,
    List.length_map]
  omega

/-- Every value of the extension table is a dot followed by a non-empty
run of characters that are neither dots nor separators. -/
lemma ext_shape (mimeType : String) : ∃ tl : List Char,
    (getExtensionFromMimeType mimeType).data = '.' :: tl ∧ tl ≠ [] ∧
      ∀ c ∈ tl, c ≠ '.' ∧ c ≠ '/' := by
  unfold getExtensionFromMimeType
  repeat' split
  · exact ⟨['p', 'n', 'g'], by decide⟩
  · exact ⟨['j', 'p', 'g'], by decide⟩
  · exact ⟨['j', 'p', 'g'], by decide⟩
  · exact ⟨['w', 'e', 'b', 'p'], by decide⟩
  · exact ⟨['g', 'i', 'f'], by decide⟩
  · exact ⟨['p', 'n', 'g'], by decide⟩

/-- Joining a directory and a dot-extension filename produces a path of
the shape `extname_of_shape` dissects: some prefix, a separator, then the
filename. -/
lemma joinPath_data (a fname : String) (stem tl : List Char)
    (hf : fname.data = stem ++ '.' :: tl) :
    ∃ pre, (joinPath a fname).data = pre ++ '/' :: (stem ++ '.' :: tl) := by
  unfold joinPath
  by_cases h : endsWithChar a '/' = true
  · rw [if_pos h]
    unfold endsWithChar at h
    rcases hrev : a.data.reverse with _ | ⟨d, r⟩
    · rw [hrev] at h
      simp at h
    · rw [hrev] at h
      have hd : d = '/' := by simpa using h
      subst hd
      have ha : a.data = r.reverse ++ ['/'] := by
        have h2 := congrArg List.reverse hrev
        simpa using h2
      refine ⟨r.reverse, ?_⟩
      rw [String.data_append, ha, hf]
      simp
  · rw [if_neg h]
    refine ⟨a.data, ?_⟩
    rw [String.data_append, String.data_append, hf]
    have hsl : ("/" : String).data = ['/'] := by decide
    rw [hsl]
    simp

/-- C7: output-path resolution.  For a supplied path that is an existing
directory or textually ends with a path separator, the resolved path is
the directory joined with a generated filename whose timestamp portion
has exactly 19 characters and whose extension is the MIME-derived one;
for a non-directory path lacking an extension, exactly the MIME-derived
extension is appended; and every MIME type outside the fixed table falls
back to `.png`. -/
theorem resolve_output_path_spec (outputPath mimeType iso : String)
    (existsAsDir : Bool) :
    ((endsWithChar outputPath '/' || endsWithChar outputPath '\\' ||
        existsAsDir) = true →
      (∀ c ∈ iso.data, c ≠ '/') →
      19 ≤ iso.length →
      resolveOutputPath outputPath mimeType iso existsAsDir
        = joinPath outputPath (generateFilename "blog-image" mimeType iso)
      ∧ (isoTimestamp iso).length = 19
      ∧ extname (resolveOutputPath outputPath mimeType iso existsAsDir)
        = getExtensionFromMimeType mimeType)
    ∧ ((endsWithChar outputPath '/' || endsWithChar outputPath '\\' ||
        existsAsDir) = false →
      extname outputPath = "" →
      resolveOutputPath outputPath mimeType iso existsAsDir
        = outputPath ++ getExtensionFromMimeType mimeType)
    ∧ (mimeType ≠ "image/png" → mimeType ≠ "image/jpeg" →
      mimeType ≠ "image/jpg" → mimeType ≠ "image/webp" →
      mimeType ≠ "image/gif" →
      getExtensionFromMimeType mimeType = ".png") := by
  refine ⟨?dir, ?file, ?fallback⟩
  case dir =>
    intro hdir hiso hlen
    obtain ⟨tl, hed, htlne, htlc⟩ := ext_shape mimeType
    have hbi : ("blog-image" ++ "-" : String) = "blog-image-" := by decide
    have hfn : generateFilename "blog-image" mimeType iso
        = ("blog-image-" ++ isoTimestamp iso) ++
          getExtensionFromMimeType mimeType := by
      unfold generateFilename
      rw [hbi]
    have hfd : (generateFilename "blog-image" mimeType iso).data
        = ("blog-image-" ++ isoTimestamp iso).data ++ '.' :: tl := by
      rw [hfn, String.data_append, hed]
    have hstem : ∀ c ∈ ("blog-image-" ++ isoTimestamp iso).data, c ≠ '/' := by
      intro c hc
      rw [String.data_append] at hc
      rcases List.mem_append.1 hc with h | h
      · have hall : ∀ x ∈ ("blog-image-" : String).data, x ≠ '/' := by decide
        exact hall c h
      · exact ts_no_slash iso hiso c h
    have hstemne : ("blog-image-" ++ isoTimestamp iso).data ≠ [] := by
      intro h
      have hl := congrArg List.length h
      rw [String.data_append] at hl
      simp at hl
    obtain ⟨pre, hjd⟩ := joinPath_data outputPath
      (generateFilename "blog-image" mimeType iso) _ tl hfd
    have hext1 : extname (joinPath outputPath
        (generateFilename "blog-image" mimeType iso)) = String.mk ('.' :: tl) :=
      extname_of_shape _ pre _ tl hjd htlne htlc hstemne hstem
    have hextstr : String.mk ('.' :: tl) = getExtensionFromMimeType mimeType := by
      rw [← hed]
    have hne : extname (joinPath outputPath
        (generateFilename "blog-image" mimeType iso)) ≠ "" := by
      rw [hext1]
      intro h
      have hd := congrArg String.data h
      simp at hd
    have hres : resolveOutputPath outputPath mimeType iso existsAsDir
        = joinPath outputPath (generateFilename "blog-image" mimeType iso) := by
      simp only [resolveOutputPath]
      rw [hdir]
      rw [if_pos rfl]
      rw [if_neg hne]
    exact ⟨hres, isoTimestamp_length iso hlen, by rw [hres, hext1, hextstr]⟩
  case file =>
    intro hnd hext
    simp only [resolveOutputPath]
    rw [hnd]
    have hfalse : ¬(false = true) := by simp
    rw [if_neg hfalse]
    rw [if_pos hext]
  case fallback =>
    intro h1 h2 h3 h4 h5
    simp [getExtensionFromMimeType, h1, h2, h3, h4, h5]

/-- C7 witness: the resolution theorem evaluated on a concrete directory
path, PNG MIME type and concrete clock string. -/
theorem resolve_output_path_spec_witness :
    resolveOutputPath "/out/" "image/png" "2025-12-02T10:30:00.000Z" false
      = joinPath "/out/" (generateFilename "blog-image" "image/png"
          "2025-12-02T10:30:00.000Z")
    ∧ (isoTimestamp "2025-12-02T10:30:00.000Z").length = 19
    ∧ extname (resolveOutputPath "/out/" "image/png"
        "2025-12-02T10:30:00.000Z" false)
      = getExtensionFromMimeType "image/png" :=
  (resolve_output_path_spec "/out/" "image/png" "2025-12-02T10:30:00.000Z"
      false).1 (by decide) (by decide) (by decide)

/-- A provider result used by the evaluation theorems: the base64 text of
a 12-byte signature-valid PNG prefix. -/
def sampleImage : GeneratedImage :=
  { base64Data := "iVBORw0KGgoAAAAA", mimeType := "image/png",
    width := some 1536, height := some 864,
    model := some "gemini-2.5-flash-image" }

/-- A validated tool input used by the evaluation theorems. -/
def sampleInput : GenerateImageInput :=
  { prompt := "sunset", format := "ghost-banner", quality := "standard",
    style := none, title := none, outputPath := some "/tmp/out.png",
    provider := "gemini" }

/-- An environment in which every step succeeds. -/
def sampleEnvOk : PipelineEnv :=
  { providerConfigured := true, providerResult := Except.ok sampleImage,
    writeError := none, outputPathExistsAsDir := false, dirExists := true,
    defaultOutputDir := "/root/generated-images",
    isoNow := "2025-12-02T10:30:00.000Z" }

/-- The same environment with a failing write step. -/
def sampleEnvWriteFail : PipelineEnv :=
  { sampleEnvOk with writeError := some "EACCES: permission denied" }

/-- The same environment with an unconfigured provider. -/
def sampleEnvNotConfigured : PipelineEnv :=
  { sampleEnvOk with providerConfigured := false }

/-- Formatted byte size of a committed write. -/
def writtenSize (w : FileWrite) : String :=
  formatFileSize w.bytes.length

/-- C8: with an unconfigured provider the pipeline returns the
not-configured failure, never invokes the provider, and performs no
filesystem mutation. -/
theorem not_configured_short_circuit (input : GenerateImageInput)
    (preset : PlatformPreset) (env : PipelineEnv)
    (h : env.providerConfigured = false) :
    (executeGenerateImage input preset env).1.success = false
    ∧ (executeGenerateImage input preset env).1.message
      = "Provider not configured"
    ∧ (executeGenerateImage input preset env).2.1.providerCalled = false
    ∧ (executeGenerateImage input preset env).2.1.wroteFile = false
    ∧ (executeGenerateImage input preset env).2.1.madeDir = false
    ∧ (executeGenerateImage input preset env).2.2 = none := by
  simp [executeGenerateImage, h]

/-- C8 witness: the short-circuit theorem evaluated on a concrete
unconfigured environment. -/
theorem not_configured_short_circuit_witness :
    (executeGenerateImage sampleInput cNativePreset
        sampleEnvNotConfigured).1.message = "Provider not configured"
    ∧ (executeGenerateImage sampleInput cNativePreset
        sampleEnvNotConfigured).2.1.providerCalled = false :=
  ⟨(not_configured_short_circuit sampleInput cNativePreset
      sampleEnvNotConfigured rfl).2.1,
   (not_configured_short_circuit sampleInput cNativePreset
      sampleEnvNotConfigured rfl).2.2.1⟩

/-- C6 (amended): when the provider call succeeds and the save step
throws, the outcome is a failure with the fixed message
`Failed to save image` — distinct from the generation-failure message —
carrying the sanitized save error, and no file write is reported; the
fixed message, however, does not itself state that the image was
generated (it contains no such wording). -/
theorem write_failure_outcome (input : GenerateImageInput)
    (preset : PlatformPreset) (env : PipelineEnv) (img : GeneratedImage)
    (e : String)
    (hc : env.providerConfigured = true)
    (hr : env.providerResult = Except.ok img)
    (hs : (saveImageModel img.base64Data (pipelineOutputPath input env img)
        img.mimeType (some (buildMetadata input img env.isoNow)) env).1
      = Except.error e) :
    (executeGenerateImage input preset env).1.success = false
    ∧ (executeGenerateImage input preset env).1.message
      = "Failed to save image"
    ∧ (executeGenerateImage input preset env).1.error
      = some (safeErrorMessage e)
    ∧ (executeGenerateImage input preset env).1.message
      ≠ "Image generation failed"
    ∧ containsSub (executeGenerateImage input preset env).1.message
        "generated" = false
    ∧ (executeGenerateImage input preset env).2.2 = none := by
  rcases hpair : saveImageModel img.base64Data
      (pipelineOutputPath input env img) img.mimeType
      (some (buildMetadata input img env.isoNow)) env with ⟨exc, md⟩
  rw [hpair] at hs
  simp only at hs
  subst hs
  have hrun : executeGenerateImage input preset env
      = ({ success := false, message := "Failed to save image",
           image := none, warning := none,
           error := some (safeErrorMessage e) },
         { providerCalled := true, madeDir := md, wroteFile := false },
         none) := by
    simp [executeGenerateImage, hc, hr, hpair]
  rw [hrun]
  refine ⟨rfl, rfl, rfl, ?_, ?_, rfl⟩
  · show ("Failed to save image" : String) ≠ "Image generation failed"
    decide
  · show containsSub "Failed to save image" "generated" = false
    decide

/-- C6 witness: the write-failure theorem evaluated on a concrete
environment whose write step throws a permission error. -/
theorem write_failure_outcome_witness :
    (executeGenerateImage sampleInput cNativePreset
        sampleEnvWriteFail).1.success = false
    ∧ (executeGenerateImage sampleInput cNativePreset
        sampleEnvWriteFail).1.message = "Failed to save image" :=
  ⟨(write_failure_outcome sampleInput cNativePreset sampleEnvWriteFail
      sampleImage "EACCES: permission denied" rfl rfl rfl).1,
   (write_failure_outcome sampleInput cNativePreset sampleEnvWriteFail
      sampleImage "EACCES: permission denied" rfl rfl rfl).2.1⟩

/-- C6 counterexample: on the concrete write-failure run, neither the
message nor the error text contains the word `generated`, refuting the
claim that the error text explicitly states the image was generated. -/
theorem write_failure_text_refuted :
    (executeGenerateImage sampleInput cNativePreset
        sampleEnvWriteFail).1.success = false
    ∧ (executeGenerateImage sampleInput cNativePreset
        sampleEnvWriteFail).1.message = "Failed to save image"
    ∧ (executeGenerateImage sampleInput cNativePreset
        sampleEnvWriteFail).1.error = some "EACCES: permission denied"
    ∧ containsSub "Failed to save image" "generated" = false
    ∧ containsSub "EACCES: permission denied" "generated" = false := by
  decide

/-- C9: a successful run hands the provider's base64 payload back to the
caller unchanged, while the committed file content is the decoded payload
with the synthesized metadata chunks spliced in after the first chunk —
strictly longer than the raw payload by the chunk run. -/
theorem success_returns_original_base64 (input : GenerateImageInput)
    (preset : PlatformPreset) (env : PipelineEnv) (img : GeneratedImage)
    (L : Nat)
    (hc : env.providerConfigured = true)
    (hr : env.providerResult = Except.ok img)
    (hw : env.writeError = none)
    (hm : img.mimeType = "image/png")
    (hsig : (base64Decode img.base64Data).take 8 = pngSignature)
    (hread : readUInt32BE (base64Decode img.base64Data) 8 = some L) :
    (executeGenerateImage input preset env).1.success = true
    ∧ ((executeGenerateImage input preset env).1.image.map
        ImageInfo.base64Data) = some img.base64Data
    ∧ ((executeGenerateImage input preset env).2.2.map FileWrite.bytes)
      = some ((base64Decode img.base64Data).take (8 + 4 + 4 + L + 4) ++
          metadataChunks (buildMetadata input img env.isoNow) ++
          (base64Decode img.base64Data).drop (8 + 4 + 4 + L + 4))
    ∧ ((base64Decode img.base64Data).take (8 + 4 + 4 + L + 4) ++
        metadataChunks (buildMetadata input img env.isoNow) ++
        (base64Decode img.base64Data).drop (8 + 4 + 4 + L + 4)).length
      = (base64Decode img.base64Data).length +
        (metadataChunks (buildMetadata input img env.isoNow)).length
    ∧ 0 < (metadataChunks (buildMetadata input img env.isoNow)).length := by
  have hembed : embedPngMetadata (base64Decode img.base64Data)
      (buildMetadata input img env.isoNow)
      = some ((base64Decode img.base64Data).take (8 + 4 + 4 + L + 4) ++
          metadataChunks (buildMetadata input img env.isoNow) ++
          (base64Decode img.base64Data).drop (8 + 4 + 4 + L + 4)) := by
    simp [embedPngMetadata, hsig, hread]
  have hsave : saveImageModel img.base64Data (pipelineOutputPath input env img)
      img.mimeType (some (buildMetadata input img env.isoNow)) env
      = (Except.ok
          { path := resolveOutputPath (pipelineOutputPath input env img)
              img.mimeType env.isoNow env.outputPathExistsAsDir
            bytes := (base64Decode img.base64Data).take (8 + 4 + 4 + L + 4) ++
              metadataChunks (buildMetadata input img env.isoNow) ++
              (base64Decode img.base64Data).drop (8 + 4 + 4 + L + 4) },
         !env.dirExists) := by
    simp [saveImageModel, hm, hembed, hw]
  refine ⟨?_, ?_, ?_, ?_, metadataChunks_pos _⟩
  · simp [executeGenerateImage, hc, hr, hsave]
  · simp [executeGenerateImage, hc, hr, hsave]
  · simp [executeGenerateImage, hc, hr, hsave]
  · simp only [List.length_append, List.length_take, List.length_drop]
    omega

/-- C9 witness: the theorem evaluated on the all-success environment with
the concrete 12-byte PNG payload (declared first-chunk length 0). -/
theorem success_returns_original_base64_witness :
    (executeGenerateImage sampleInput cNativePreset sampleEnvOk).1.success
      = true
    ∧ ((executeGenerateImage sampleInput cNativePreset
        sampleEnvOk).1.image.map ImageInfo.base64Data)
      = some sampleImage.base64Data :=
  ⟨(success_returns_original_base64 sampleInput cNativePreset sampleEnvOk
      sampleImage 0 rfl rfl rfl rfl (by decide) (by decide)).1,
   (success_returns_original_base64 sampleInput cNativePreset sampleEnvOk
      sampleImage 0 rfl rfl rfl rfl (by decide) (by decide)).2.1⟩

/-- C5 (amended): in every successful outcome the reported `fileSize`
string is the formatted size estimate of the provider's raw base64
payload — `Math.floor(3/4 of the base64 length)` — computed before
metadata embedding, not the byte size of the final written buffer. -/
theorem reported_size_is_estimate (input : GenerateImageInput)
    (preset : PlatformPreset) (env : PipelineEnv) (img : GeneratedImage)
    (hr : env.providerResult = Except.ok img)
    (hsucc : (executeGenerateImage input preset env).1.success = true) :
    ((executeGenerateImage input preset env).1.image.map ImageInfo.fileSize)
      = some (formatFileSize (estimateFileSize img.base64Data)) := by
  by_cases hc : env.providerConfigured = true
  · rcases hpair : saveImageModel img.base64Data
        (pipelineOutputPath input env img) img.mimeType
        (some (buildMetadata input img env.isoNow)) env with ⟨exc, md⟩
    cases exc with
    | error e =>
      have hfail : (executeGenerateImage input preset env).1.success = false := by
        simp [executeGenerateImage, hc, hr, hpair]
      rw [hfail] at hsucc
      cases hsucc
    | ok fw =>
      simp [executeGenerateImage, hc, hr, hpair]
  · have hcf : env.providerConfigured = false := by
      revert hc
      cases env.providerConfigured <;> simp
    have hfail : (executeGenerateImage input preset env).1.success = false := by
      simp [executeGenerateImage, hcf]
    rw [hfail] at hsucc
    cases hsucc

/-- C5 amended witness: the estimate theorem evaluated on the all-success
environment. -/
theorem reported_size_is_estimate_witness :
    ((executeGenerateImage sampleInput cNativePreset
        sampleEnvOk).1.image.map ImageInfo.fileSize)
      = some (formatFileSize (estimateFileSize sampleImage.base64Data)) :=
  reported_size_is_estimate sampleInput cNativePreset sampleEnvOk
    sampleImage rfl (by decide)

/-- C5 counterexample: on the concrete all-success run the outcome
reports `12 B` — the estimate of the 12-byte raw payload — while the
buffer actually written to disk is 331 bytes long, so the reported size
differs from the size of the written file. -/
theorem reported_size_differs_from_written :
    (executeGenerateImage sampleInput cNativePreset sampleEnvOk).1.success
      = true
    ∧ ((executeGenerateImage sampleInput cNativePreset
        sampleEnvOk).1.image.map ImageInfo.fileSize) = some "12 B"
    ∧ ((executeGenerateImage sampleInput cNativePreset
        sampleEnvOk).2.2.map writtenSize) = some "331 B"
    ∧ ((executeGenerateImage sampleInput cNativePreset
        sampleEnvOk).1.image.map ImageInfo.fileSize)
      ≠ ((executeGenerateImage sampleInput cNativePreset
        sampleEnvOk).2.2.map writtenSize) := by
  decide
